import Mathlib

/-!
Verification of the Game of Life simulation core.

The grid model, rule evaluation and controller commands below are shallow
embeddings of the two source files of the repository: `src/src/App.jsx` and
`src/unnamed/part_000`. Cells are the numbers `0` (dead) and `1` (alive),
exactly as in the JavaScript 2D arrays; grids are lists of rows; the React
component state (`numRows`, `numCols`, `grid`, `running`, rule parameters)
is gathered into the structure `AppState`, and each event handler of the
component becomes a function `AppState → AppState`.
-/

namespace GameOfLife

/-- Grids as in the source: a list of rows, each row a list of 0/1 cells. -/
abbrev Grid := List (List Nat)

/-- Reading `g[i][j]`; indices outside the grid yield the default `0`.
The sources only read after an explicit bounds check, so the default is
never observed on well-formed grids. -/
def cellAt (g : Grid) (i j : Nat) : Nat :=
  (g.getD i []).getD j 0

/-- Source `generateEmptyGrid(rows, cols)` (both files):
`Array.from({length: rows}, () => Array(cols).fill(0))`. -/
def generateEmptyGrid (rows cols : Nat) : Grid :=
  List.replicate rows (List.replicate cols 0)

/-- Source `operations` (src/src/App.jsx lines 49-58): the eight direction
vectors, in source order. -/
def operations : List (Int × Int) :=
  [(0, 1), (0, -1), (1, -1), (-1, 1), (1, 1), (-1, -1), (1, 0), (-1, 0)]

/-- Neighbor counting of `runSimulation` (src/src/App.jsx lines 70-82): for
each offset, set `newI = i + x`, `newJ = j + y`, bounds-check against
`numRows`/`numCols`, and accumulate `g[newI][newJ]` from the pre-step grid. -/
def countNeighbors (g : Grid) (numRows numCols : Nat) (i j : Nat) : Nat :=
  operations.foldl
    (fun neighbors op =>
      let newI : Int := (i : Int) + op.1
      let newJ : Int := (j : Int) + op.2
      if 0 ≤ newI ∧ newI < (numRows : Int) ∧ 0 ≤ newJ ∧ newJ < (numCols : Int) then
        neighbors + cellAt g newI.toNat newJ.toNat
      else neighbors)
    0

/-- Per-cell transition of `runSimulation` (src/src/App.jsx lines 83-85):
`if (cell === 1 && (neighbors < surviveMin || neighbors > surviveMax)) return 0;
if (cell === 0 && neighbors === birthNum) return 1; return cell`.
Rule parameters are JavaScript numbers set with no validation, so they are
modelled as integers. -/
def nextCell (cell neighbors : Nat) (surviveMin surviveMax birthNum : Int) : Nat :=
  if cell = 1 ∧ ((neighbors : Int) < surviveMin ∨ (neighbors : Int) > surviveMax) then 0
  else if cell = 0 ∧ (neighbors : Int) = birthNum then 1
  else cell

/-- Grid transformation applied by the `setGrid` updater of `runSimulation`
in `src/src/App.jsx` (lines 67-88): `g.map((row, i) => row.map((cell, j) => ...))`
with every neighbor count taken on the pre-step grid `g`. -/
def stepGrid (g : Grid) (numRows numCols : Nat)
    (surviveMin surviveMax birthNum : Int) : Grid :=
  g.mapIdx (fun i row =>
    row.mapIdx (fun j cell =>
      nextCell cell (countNeighbors g numRows numCols i j) surviveMin surviveMax birthNum))

/-- Source `operations` of `src/unnamed/part_000` (lines 54-63), transcribed
separately from that file. -/
def operationsP000 : List (Int × Int) :=
  [(0, 1), (0, -1), (1, -1), (-1, 1), (1, 1), (-1, -1), (1, 0), (-1, 0)]

/-- Grid transformation applied by the `setGrid` updater of `runSimulation`
in `src/unnamed/part_000` (lines 72-96), transcribed separately: the loop
body uses `let` bindings and the same boundary check and rule lines. -/
def stepGridP000 (g : Grid) (numRows numCols : Nat)
    (surviveMin surviveMax birthNum : Int) : Grid :=
  g.mapIdx (fun i row =>
    row.mapIdx (fun j cell =>
      let neighbors : Nat :=
        operationsP000.foldl
          (fun neighbors op =>
            let newI : Int := (i : Int) + op.1
            let newJ : Int := (j : Int) + op.2
            if 0 ≤ newI ∧ newI < (numRows : Int) ∧ 0 ≤ newJ ∧ newJ < (numCols : Int) then
              neighbors + cellAt g newI.toNat newJ.toNat
            else neighbors)
          0
      if cell = 1 ∧ ((neighbors : Int) < surviveMin ∨ (neighbors : Int) > surviveMax) then 0
      else if cell = 0 ∧ (neighbors : Int) = birthNum then 1
      else cell))

/-- Writing `g[i][j] = v` on the value level: replace row `i` by that row
with entry `j` set (out-of-range writes leave the grid unchanged; the
sources only perform in-range writes). -/
def setCell (g : Grid) (i j : Nat) (v : Nat) : Grid :=
  g.set i ((g.getD i []).set j v)

/-- Grid built by source `createGlider` (src/unnamed/part_000 lines 125-138):
an empty grid with the five glider cells written at fixed offsets from
`(⌊rows/2⌋, ⌊cols/2⌋)`, in source order. -/
def gliderGrid (numRows numCols : Nat) : Grid :=
  let centerRow := numRows / 2
  let centerCol := numCols / 2
  let g0 := generateEmptyGrid numRows numCols
  let g1 := setCell g0 centerRow (centerCol + 1) 1
  let g2 := setCell g1 (centerRow + 1) (centerCol + 2) 1
  let g3 := setCell g2 (centerRow + 2) centerCol 1
  let g4 := setCell g3 (centerRow + 2) (centerCol + 1) 1
  setCell g4 (centerRow + 2) (centerCol + 2) 1

/-- Grid built by source `createOscillator` (src/unnamed/part_000 lines
144-155): an empty grid with the vertical blinker triple around
`(⌊rows/2⌋, ⌊cols/2⌋)`, in source order. -/
def blinkerGrid (numRows numCols : Nat) : Grid :=
  let centerRow := numRows / 2
  let centerCol := numCols / 2
  let g0 := generateEmptyGrid numRows numCols
  let g1 := setCell g0 (centerRow - 1) centerCol 1
  let g2 := setCell g1 centerRow centerCol 1
  setCell g2 (centerRow + 1) centerCol 1

/-- The simulation-relevant React component state of `App`. -/
structure AppState where
  numRows : Nat
  numCols : Nat
  grid : Grid
  running : Bool
  surviveMin : Int
  surviveMax : Int
  birthNum : Int
deriving DecidableEq, Repr

/-- The tick callback `runSimulation` (both files): if `runningRef.current`
is false it returns without touching the grid; otherwise it replaces the
grid by one rule-engine step. The trailing `setTimeout` reschedule carries
no state change and is not part of the state transformation. -/
def runSimulation (s : AppState) : AppState :=
  if !s.running then s
  else { s with grid := stepGrid s.grid s.numRows s.numCols s.surviveMin s.surviveMax s.birthNum }

/-- Source `handleCellClick(i, j)` (both files): rebuild the grid with
`rowIdx === i && colIdx === j ? (cell ? 0 : 1) : cell`; `running` is not
touched. -/
def handleCellClick (s : AppState) (i j : Nat) : AppState :=
  { s with grid :=
      s.grid.mapIdx (fun rowIdx row =>
        row.mapIdx (fun colIdx cell =>
          if rowIdx = i ∧ colIdx = j then (if cell ≠ 0 then 0 else 1) else cell)) }

/-- Source `handleClear` (both files): empty grid of the current dimensions
and `setRunning(false)`. -/
def handleClear (s : AppState) : AppState :=
  { s with grid := generateEmptyGrid s.numRows s.numCols, running := false }

/-- Source `handleResize(rows, cols)` (both files): store the new
dimensions, re-synthesize an empty grid, and `setRunning(false)`. -/
def handleResize (s : AppState) (rows cols : Nat) : AppState :=
  { s with numRows := rows, numCols := cols,
           grid := generateEmptyGrid rows cols, running := false }

/-- Source `createGlider` handler (src/unnamed/part_000 lines 125-138): it
calls `setGrid(newGrid)` with the glider grid and nothing else — in
particular it does not call `setRunning`. -/
def createGlider (s : AppState) : AppState :=
  { s with grid := gliderGrid s.numRows s.numCols }

/-- Source `createOscillator` handler (src/unnamed/part_000 lines 144-155):
`setGrid(newGrid)` with the blinker grid and nothing else. -/
def createOscillator (s : AppState) : AppState :=
  { s with grid := blinkerGrid s.numRows s.numCols }

/-- The `onChange` handler of the `surviveMin` input (both files):
`setSurviveMin(Number(e.target.value))`, with no clamping or rejection in
the handler. -/
def setSurviveMin (s : AppState) (n : Int) : AppState :=
  { s with surviveMin := n }

/-- The `onChange` handler of the `surviveMax` input (both files). -/
def setSurviveMax (s : AppState) (n : Int) : AppState :=
  { s with surviveMax := n }

/-- The `onChange` handler of the `birthRule` input (both files). -/
def setBirthNum (s : AppState) (n : Int) : AppState :=
  { s with birthNum := n }

/-- A grid is well formed for dimensions `rows × cols` when it has exactly
`rows` rows, each of exactly `cols` cells, every cell being 0 or 1. -/
def wellFormed (g : Grid) (rows cols : Nat) : Prop :=
  g.length = rows ∧ ∀ row ∈ g, row.length = cols ∧ ∀ c ∈ row, c ≤ 1

instance (g : Grid) (rows cols : Nat) : Decidable (wellFormed g rows cols) := by
  unfold wellFormed
  infer_instance

/-- The eight Moore offsets named by the spec:
`(Δi, Δj) ∈ {(0,±1), (±1,0), (±1,±1)}`. -/
def mooreOffsets : List (Int × Int) :=
  [(0, 1), (0, -1), (1, 0), (-1, 0), (1, 1), (1, -1), (-1, 1), (-1, -1)]

/-- Spec-side live-neighbor count: the number of live cells among the eight
Moore offsets of `(i, j)`, offsets outside `[0, rows) × [0, cols)`
excluded. -/
def specLiveNeighbors (g : Grid) (rows cols : Nat) (i j : Nat) : Nat :=
  (mooreOffsets.filter (fun op =>
    decide (0 ≤ (i : Int) + op.1 ∧ (i : Int) + op.1 < (rows : Int) ∧
      0 ≤ (j : Int) + op.2 ∧ (j : Int) + op.2 < (cols : Int) ∧
      cellAt g ((i : Int) + op.1).toNat ((j : Int) + op.2).toNat = 1))).length

/-- Two lists are equal when they have the same length and agree on `getD`
at every index. -/
theorem ext_getD {α : Type} (d : α) {l₁ l₂ : List α} (hlen : l₁.length = l₂.length)
    (h : ∀ n, l₁.getD n d = l₂.getD n d) : l₁ = l₂ := by
  apply List.ext_getElem hlen
  intro n h₁ h₂
  have hn := h n
  rw [List.getD_eq_getElem _ _ h₁, List.getD_eq_getElem _ _ h₂] at hn
  exact hn

/-- Defaulted access into `List.mapIdx`. -/
theorem getD_mapIdx {α β : Type} (l : List α) (f : Nat → α → β) (n : Nat) (d : β) :
    (List.mapIdx f l).getD n d = if h : n < l.length then f n (l.get ⟨n, h⟩) else d := by
  split
  · rename_i h
    rw [List.getD_eq_getElem _ _ (by simpa [List.length_mapIdx] using h)]
    simpa using List.get_mapIdx l f n h
  · rename_i h
    exact List.getD_eq_default _ _ (by simp only [List.length_mapIdx]; omega)

/-- Defaulted access into `List.replicate`. -/
theorem getD_replicate {α : Type} (n m : Nat) (a d : α) :
    (List.replicate n a).getD m d = if m < n then a else d := by
  rw [List.getD_eq_getElem?_getD, List.getElem?_replicate]
  split <;> rfl

/-- Out-of-range reads yield the dead default. -/
theorem cellAt_oor {g : Grid} {i j : Nat}
    (h : g.length ≤ i ∨ (g.getD i []).length ≤ j) : cellAt g i j = 0 := by
  unfold cellAt
  rcases h with h | h
  · rw [List.getD_eq_default _ _ h]
    exact List.getD_eq_default _ _ (by simp)
  · exact List.getD_eq_default _ _ h

/-- Every cell of the empty grid is dead, at any index. -/
theorem cellAt_generateEmptyGrid (rows cols i j : Nat) :
    cellAt (generateEmptyGrid rows cols) i j = 0 := by
  unfold cellAt generateEmptyGrid
  rw [getD_replicate]
  split
  · rw [getD_replicate]
    split <;> rfl
  · rfl

/-- Writing a cell does not change the number of rows. -/
theorem length_setCell (g : Grid) (a b v : Nat) :
    (setCell g a b v).length = g.length := by
  simp [setCell]

/-- Writing a cell does not change the length of any row. -/
theorem getD_setCell_length (g : Grid) (a b v i : Nat) :
    ((setCell g a b v).getD i []).length = (g.getD i []).length := by
  unfold setCell
  by_cases hia : a = i
  · subst hia
    by_cases h : a < g.length
    · rw [List.getD_eq_getElem?_getD, List.getElem?_set_eq h, Option.getD_some, List.length_set]
    · rw [List.set_eq_of_length_le (Nat.le_of_not_lt h)]
  · rw [List.getD_eq_getElem?_getD, List.getElem?_set_ne hia, ← List.getD_eq_getElem?_getD]

/-- Reading after `setCell`: the written value at the written (in-range)
position, the old value everywhere else. -/
theorem cellAt_setCell (g : Grid) (a b v i j : Nat) :
    cellAt (setCell g a b v) i j =
      if i = a ∧ j = b ∧ a < g.length ∧ b < (g.getD a []).length then v
      else cellAt g i j := by
  unfold cellAt setCell
  by_cases hia : i = a
  · subst hia
    by_cases hlen : i < g.length
    · rw [List.getD_eq_getElem?_getD (g.set i _), List.getElem?_set_eq hlen, Option.getD_some]
      by_cases hjb : j = b
      · subst hjb
        by_cases hb : j < (g.getD i []).length
        · rw [List.getD_eq_getElem?_getD ((g.getD i []).set j v),
            List.getElem?_set_eq (by simpa [List.length_set] using hb), Option.getD_some]
          rw [List.getD_eq_getElem _ _ hlen] at hb
          simp [hlen, hb]
        · rw [List.set_eq_of_length_le (Nat.le_of_not_lt hb)]
          rw [List.getD_eq_getElem?_getD] at hb
          simp [hb]
      · rw [List.getD_eq_getElem?_getD ((g.getD i []).set b v),
          List.getElem?_set_ne (fun h => hjb h.symm), ← List.getD_eq_getElem?_getD]
        simp [hjb]
    · rw [List.set_eq_of_length_le (Nat.le_of_not_lt hlen)]
      simp [hlen]
  · rw [List.getD_eq_getElem?_getD (g.set a _), List.getElem?_set_ne (fun h => hia h.symm),
      ← List.getD_eq_getElem?_getD]
    simp [hia]

/-- Reading a cell of a doubly index-mapped grid at an in-range position. -/
theorem cellAt_mapIdx2 (g : Grid) (f : Nat → Nat → Nat → Nat) (i j : Nat)
    (hj : j < (g.getD i []).length) :
    cellAt (g.mapIdx fun a row => row.mapIdx fun b c => f a b c) i j
      = f i j (cellAt g i j) := by
  have hi : i < g.length := by
    by_contra h
    rw [List.getD_eq_default _ _ (Nat.le_of_not_lt h)] at hj
    simp at hj
  unfold cellAt
  rw [getD_mapIdx, dif_pos hi]
  show ((g.get ⟨i, hi⟩).mapIdx fun b c => f i b c).getD j 0 = f i j ((g.getD i []).getD j 0)
  have hg : g.get ⟨i, hi⟩ = g.getD i [] := by
    rw [List.get_eq_getElem, List.getD_eq_getElem _ _ hi]
  rw [hg, getD_mapIdx, dif_pos hj, List.get_eq_getElem, List.getD_eq_getElem _ _ hj]

/-- Index-mapping both levels of a grid preserves every row length. -/
theorem getD_length_mapIdx2 (g : Grid) (f : Nat → Nat → Nat → Nat) (i : Nat) :
    ((g.mapIdx fun a row => row.mapIdx fun b c => f a b c).getD i []).length
      = (g.getD i []).length := by
  rw [getD_mapIdx]
  split
  · rename_i h
    show ((g.get ⟨i, h⟩).mapIdx fun b c => f i b c).length = _
    rw [List.length_mapIdx, List.get_eq_getElem, List.getD_eq_getElem _ _ h]
  · rename_i h
    rw [List.getD_eq_default _ _ (Nat.le_of_not_lt h)]

/-- The neighbor accumulation of `runSimulation` computes, over any list of
offsets, the starting value plus the number of offsets that are in bounds
and point at a live cell — provided every cell value is at most 1. -/
theorem foldl_neighbors_eq_filter_length (g : Grid) (rows cols i j : Nat)
    (hbin : ∀ a b, cellAt g a b ≤ 1) (ops : List (Int × Int)) :
    ∀ acc : Nat,
      ops.foldl
        (fun neighbors op =>
          let newI : Int := (i : Int) + op.1
          let newJ : Int := (j : Int) + op.2
          if 0 ≤ newI ∧ newI < (rows : Int) ∧ 0 ≤ newJ ∧ newJ < (cols : Int) then
            neighbors + cellAt g newI.toNat newJ.toNat
          else neighbors)
        acc
      = acc + (ops.filter (fun op =>
          decide (0 ≤ (i : Int) + op.1 ∧ (i : Int) + op.1 < (rows : Int) ∧
            0 ≤ (j : Int) + op.2 ∧ (j : Int) + op.2 < (cols : Int) ∧
            cellAt g ((i : Int) + op.1).toNat ((j : Int) + op.2).toNat = 1))).length := by
  induction ops with
  | nil => intro acc; simp
  | cons op rest ih =>
    intro acc
    rw [List.foldl_cons, List.filter_cons, ih]
    simp only []
    by_cases hb : 0 ≤ (i : Int) + op.1 ∧ (i : Int) + op.1 < (rows : Int) ∧
        0 ≤ (j : Int) + op.2 ∧ (j : Int) + op.2 < (cols : Int)
    · rw [if_pos hb]
      have hcell := hbin ((i : Int) + op.1).toNat ((j : Int) + op.2).toNat
      have hsplit : cellAt g ((i : Int) + op.1).toNat ((j : Int) + op.2).toNat = 0 ∨
          cellAt g ((i : Int) + op.1).toNat ((j : Int) + op.2).toNat = 1 := by omega
      rcases hsplit with h0 | h1
      · rw [h0]
        rw [if_neg (by simp)]
        omega
      · rw [h1]
        rw [if_pos (by simp [hb])]
        rw [List.length_cons]
        omega
    · rw [if_neg hb]
      have hpredf : ¬(0 ≤ (i : Int) + op.1 ∧ (i : Int) + op.1 < (rows : Int) ∧
          0 ≤ (j : Int) + op.2 ∧ (j : Int) + op.2 < (cols : Int) ∧
          cellAt g ((i : Int) + op.1).toNat ((j : Int) + op.2).toNat = 1) := by
        intro hc
        exact hb ⟨hc.1, hc.2.1, hc.2.2.1, hc.2.2.2.1⟩
      rw [if_neg (by simpa using hpredf)]

/-- On grids whose cells are all 0 or 1, the source's accumulated neighbor
sum equals the spec's live-neighbor count over the Moore neighborhood. -/
theorem countNeighbors_eq_spec (g : Grid) (rows cols i j : Nat)
    (hbin : ∀ a b, cellAt g a b ≤ 1) :
    countNeighbors g rows cols i j = specLiveNeighbors g rows cols i j := by
  unfold countNeighbors specLiveNeighbors
  rw [foldl_neighbors_eq_filter_length g rows cols i j hbin operations 0, Nat.zero_add]
  exact List.Perm.length_eq
    (List.Perm.filter _ (by decide : operations.Perm mooreOffsets))

/-- On the empty grid every neighbor count is zero. -/
theorem countNeighbors_generateEmptyGrid (rows cols numRows numCols i j : Nat) :
    countNeighbors (generateEmptyGrid rows cols) numRows numCols i j = 0 := by
  unfold countNeighbors
  have key : ∀ (ops : List (Int × Int)) (acc : Nat),
      ops.foldl
        (fun neighbors op =>
          let newI : Int := (i : Int) + op.1
          let newJ : Int := (j : Int) + op.2
          if 0 ≤ newI ∧ newI < (numRows : Int) ∧ 0 ≤ newJ ∧ newJ < (numCols : Int) then
            neighbors + cellAt (generateEmptyGrid rows cols) newI.toNat newJ.toNat
          else neighbors)
        acc = acc := by
    intro ops
    induction ops with
    | nil => intro acc; rfl
    | cons op rest ih =>
      intro acc
      rw [List.foldl_cons, ih]
      simp [cellAt_generateEmptyGrid]
  exact key operations 0

/-- C1: On a well-formed grid, one step computes each cell's next state from
the pre-step snapshot: the live-neighbor count of `(i, j)` is the number of
live cells among the eight Moore offsets, out-of-range offsets excluded (no
wraparound); an alive cell dies iff its count is below `surviveMin` or above
`surviveMax`, a dead cell is born iff its count equals `birthNum`, and every
other cell is unchanged. -/
theorem step_matches_spec (g : Grid) (rows cols : Nat) (sMin sMax bN : Int)
    (hwf : wellFormed g rows cols) (i j : Nat) (hi : i < rows) (hj : j < cols) :
    cellAt (stepGrid g rows cols sMin sMax bN) i j =
      if cellAt g i j = 1 ∧ ((specLiveNeighbors g rows cols i j : Int) < sMin ∨
          (specLiveNeighbors g rows cols i j : Int) > sMax) then 0
      else if cellAt g i j = 0 ∧ ((specLiveNeighbors g rows cols i j : Int) = bN) then 1
      else cellAt g i j := by
  obtain ⟨hlen, hrow⟩ := hwf
  have hbin : ∀ a b, cellAt g a b ≤ 1 := by
    intro a b
    rcases Nat.lt_or_ge a g.length with ha | ha
    · rcases Nat.lt_or_ge b (g.getD a []).length with hb | hb
      · have hmem : g.getD a [] ∈ g := by
          rw [List.getD_eq_getElem _ _ ha]
          exact List.getElem_mem ha
        have hcmem : (g.getD a []).getD b 0 ∈ g.getD a [] := by
          rw [List.getD_eq_getElem _ _ hb]
          exact List.getElem_mem hb
        exact (hrow _ hmem).2 _ hcmem
      · rw [cellAt_oor (Or.inr hb)]
        exact Nat.zero_le 1
    · rw [cellAt_oor (Or.inl ha)]
      exact Nat.zero_le 1
  have hi' : i < g.length := by omega
  have hrowlen : (g.getD i []).length = cols := by
    rw [List.getD_eq_getElem _ _ hi']
    exact (hrow _ (List.getElem_mem hi')).1
  have hstep : cellAt (stepGrid g rows cols sMin sMax bN) i j
      = nextCell (cellAt g i j) (countNeighbors g rows cols i j) sMin sMax bN := by
    unfold stepGrid
    exact cellAt_mapIdx2 g
      (fun a b c => nextCell c (countNeighbors g rows cols a b) sMin sMax bN) i j
      (by rw [hrowlen]; exact hj)
  rw [hstep, countNeighbors_eq_spec g rows cols i j hbin]
  rfl

/-- Witness for C1 on a concrete 2×2 grid at cell (0, 1). -/
theorem step_matches_spec_witness :
    wellFormed [[1, 0], [0, 1]] 2 2 ∧ (0 : Nat) < 2 ∧ (1 : Nat) < 2 ∧
      cellAt (stepGrid [[1, 0], [0, 1]] 2 2 2 3 3) 0 1 =
        (if cellAt [[1, 0], [0, 1]] 0 1 = 1 ∧
            ((specLiveNeighbors [[1, 0], [0, 1]] 2 2 0 1 : Int) < 2 ∨
             (specLiveNeighbors [[1, 0], [0, 1]] 2 2 0 1 : Int) > 3) then 0
         else if cellAt [[1, 0], [0, 1]] 0 1 = 0 ∧
            ((specLiveNeighbors [[1, 0], [0, 1]] 2 2 0 1 : Int) = 3) then 1
         else cellAt [[1, 0], [0, 1]] 0 1) :=
  ⟨by decide, by decide, by decide,
    step_matches_spec [[1, 0], [0, 1]] 2 2 2 3 3 (by decide) 0 1 (by decide) (by decide)⟩

/-- C3 counterexample: on a running 10×10 state, seeding the glider or the
blinker pattern leaves `running` true — the seed handlers do not force the
run state to stopped as the claim requires. -/
theorem seed_pattern_keeps_running_cex :
    ¬ ((createGlider (AppState.mk 10 10 (generateEmptyGrid 10 10) true 2 3 3)).running = false
        ∧ (createOscillator (AppState.mk 10 10 (generateEmptyGrid 10 10) true 2 3 3)).running = false) := by
  decide

/-- C3 amended: each seed-pattern command replaces the grid wholesale with
the pattern grid but leaves the run state (and the dimensions) unchanged;
it does not halt an in-flight run. -/
theorem seed_pattern_replaces_grid_only (s : AppState) :
    (createGlider s).grid = gliderGrid s.numRows s.numCols
    ∧ (createGlider s).running = s.running
    ∧ (createGlider s).numRows = s.numRows ∧ (createGlider s).numCols = s.numCols
    ∧ (createOscillator s).grid = blinkerGrid s.numRows s.numCols
    ∧ (createOscillator s).running = s.running
    ∧ (createOscillator s).numRows = s.numRows ∧ (createOscillator s).numCols = s.numCols :=
  ⟨rfl, rfl, rfl, rfl, rfl, rfl, rfl, rfl⟩

set_option maxRecDepth 8000 in
/-- C2: with `surviveMin = 2`, `surviveMax = 3`, `birthNum = 3`, the blinker
seeded at the center of an empty 10×10 grid is the vertical triple
(4,5),(5,5),(6,5); one step yields exactly the horizontal triple
(5,4),(5,5),(5,6) with all other cells dead, and a second step restores the
original vertical triple (period-2 oscillation). -/
theorem blinker_period_two :
    blinkerGrid 10 10 =
      [[0, 0, 0, 0, 0, 0, 0, 0, 0, 0],
       [0, 0, 0, 0, 0, 0, 0, 0, 0, 0],
       [0, 0, 0, 0, 0, 0, 0, 0, 0, 0],
       [0, 0, 0, 0, 0, 0, 0, 0, 0, 0],
       [0, 0, 0, 0, 0, 1, 0, 0, 0, 0],
       [0, 0, 0, 0, 0, 1, 0, 0, 0, 0],
       [0, 0, 0, 0, 0, 1, 0, 0, 0, 0],
       [0, 0, 0, 0, 0, 0, 0, 0, 0, 0],
       [0, 0, 0, 0, 0, 0, 0, 0, 0, 0],
       [0, 0, 0, 0, 0, 0, 0, 0, 0, 0]]
    ∧ stepGrid (blinkerGrid 10 10) 10 10 2 3 3 =
      [[0, 0, 0, 0, 0, 0, 0, 0, 0, 0],
       [0, 0, 0, 0, 0, 0, 0, 0, 0, 0],
       [0, 0, 0, 0, 0, 0, 0, 0, 0, 0],
       [0, 0, 0, 0, 0, 0, 0, 0, 0, 0],
       [0, 0, 0, 0, 0, 0, 0, 0, 0, 0],
       [0, 0, 0, 0, 1, 1, 1, 0, 0, 0],
       [0, 0, 0, 0, 0, 0, 0, 0, 0, 0],
       [0, 0, 0, 0, 0, 0, 0, 0, 0, 0],
       [0, 0, 0, 0, 0, 0, 0, 0, 0, 0],
       [0, 0, 0, 0, 0, 0, 0, 0, 0, 0]]
    ∧ stepGrid (stepGrid (blinkerGrid 10 10) 10 10 2 3 3) 10 10 2 3 3 = blinkerGrid 10 10 := by
  refine ⟨by decide, by decide, by decide⟩

/-- C4: when the run state is stopped at the time the scheduled tick
callback fires, the callback returns without touching anything — the whole
state, and in particular the grid, is unchanged. -/
theorem paused_tick_no_mutation (s : AppState) (h : s.running = false) :
    runSimulation s = s := by
  unfold runSimulation
  rw [h]
  rfl

/-- Witness for C4 on a concrete stopped state. -/
theorem paused_tick_no_mutation_witness :
    (AppState.mk 2 2 [[1, 0], [0, 1]] false 2 3 3).running = false
    ∧ runSimulation (AppState.mk 2 2 [[1, 0], [0, 1]] false 2 3 3)
      = AppState.mk 2 2 [[1, 0], [0, 1]] false 2 3 3 :=
  ⟨rfl, paused_tick_no_mutation _ rfl⟩

/-- C9 counterexample: the `surviveMin` change handler stores 9 verbatim;
the stored parameter is then outside [0,8] and differs from the prior value
2, so the input was neither clamped into range nor rejected. -/
theorem setter_out_of_range_cex :
    (setSurviveMin (AppState.mk 10 10 (generateEmptyGrid 10 10) false 2 3 3) 9).surviveMin = 9
      ∧ ¬ ((9 : Int) ≤ 8) ∧ (9 : Int) ≠ 2 := by
  decide

/-- C9 amended: each rule-parameter change handler stores the given value
verbatim — no clamping and no rejection — and changes nothing else of the
simulation state; the stored parameter can therefore leave [0,8]. -/
theorem setters_store_verbatim (s : AppState) (n : Int) :
    (setSurviveMin s n).surviveMin = n ∧ (setSurviveMin s n).grid = s.grid
    ∧ (setSurviveMin s n).running = s.running
    ∧ (setSurviveMax s n).surviveMax = n ∧ (setSurviveMax s n).grid = s.grid
    ∧ (setSurviveMax s n).running = s.running
    ∧ (setBirthNum s n).birthNum = n ∧ (setBirthNum s n).grid = s.grid
    ∧ (setBirthNum s n).running = s.running :=
  ⟨rfl, rfl, rfl, rfl, rfl, rfl, rfl, rfl, rfl⟩

/-- Defaulted access into `List.mapIdx` at an in-range index, with any
default on the source list. -/
theorem getD_mapIdx_lt {α β : Type} (l : List α) (f : Nat → α → β) (n : Nat) (d : β) (e : α)
    (hn : n < l.length) :
    (List.mapIdx f l).getD n d = f n (l.getD n e) := by
  rw [getD_mapIdx, dif_pos hn, List.get_eq_getElem, List.getD_eq_getElem _ _ hn]

/-- C5: with `birthNum = 0`, applying one step to an all-dead grid of
positive dimensions makes every cell alive: every dead cell has zero live
neighbors, and zero equals the birth count. -/
theorem birth_zero_fills_grid (rows cols : Nat) (h1 : 0 < rows) (h2 : 0 < cols)
    (sMin sMax : Int) :
    stepGrid (generateEmptyGrid rows cols) rows cols sMin sMax 0
      = List.replicate rows (List.replicate cols 1) := by
  apply ext_getD []
  · unfold stepGrid generateEmptyGrid
    simp [List.length_mapIdx, List.length_replicate]
  · intro n
    unfold stepGrid
    by_cases hn : n < rows
    · rw [getD_mapIdx_lt _ _ n [] [] (by simpa [generateEmptyGrid] using hn)]
      rw [show (generateEmptyGrid rows cols).getD n [] = List.replicate cols 0 from by
        unfold generateEmptyGrid
        rw [getD_replicate, if_pos hn]]
      rw [getD_replicate, if_pos hn]
      apply ext_getD 0
      · simp [List.length_mapIdx, List.length_replicate]
      · intro m
        by_cases hm : m < cols
        · rw [getD_mapIdx_lt _ _ m 0 0 (by simpa [List.length_replicate] using hm)]
          rw [getD_replicate, if_pos hm]
          rw [getD_replicate, if_pos hm]
          rw [countNeighbors_generateEmptyGrid]
          simp [nextCell]
        · rw [List.getD_eq_default _ _ (by
            simp only [List.length_mapIdx, List.length_replicate]
            omega)]
          rw [getD_replicate, if_neg hm]
    · rw [List.getD_eq_default _ _ (by
        simp only [List.length_mapIdx, generateEmptyGrid, List.length_replicate]
        omega)]
      rw [getD_replicate, if_neg hn]

/-- Witness for C5 on a concrete 2×2 all-dead grid. -/
theorem birth_zero_fills_grid_witness :
    (0 : Nat) < 2 ∧
    stepGrid (generateEmptyGrid 2 2) 2 2 2 3 0 = List.replicate 2 (List.replicate 2 1) :=
  ⟨by decide, birth_zero_fills_grid 2 2 (by decide) (by decide) 2 3⟩

/-- C6: one step never changes the number of rows nor any row length, and
`handleResize` re-synthesizes via `generateEmptyGrid` a grid of exactly the
requested dimensions with every cell dead. -/
theorem dimension_preservation (g : Grid) (numRows numCols : Nat)
    (surviveMin surviveMax birthNum : Int) (s : AppState) (rows cols : Nat)
    (h1 : 0 < rows) (h2 : 0 < cols) :
    (stepGrid g numRows numCols surviveMin surviveMax birthNum).length = g.length
    ∧ (∀ i, ((stepGrid g numRows numCols surviveMin surviveMax birthNum).getD i []).length
        = (g.getD i []).length)
    ∧ (handleResize s rows cols).grid = generateEmptyGrid rows cols
    ∧ (handleResize s rows cols).numRows = rows
    ∧ (handleResize s rows cols).numCols = cols
    ∧ (generateEmptyGrid rows cols).length = rows
    ∧ ∀ row ∈ generateEmptyGrid rows cols, row.length = cols ∧ ∀ c ∈ row, c = 0 := by
  refine ⟨?_, ?_, rfl, rfl, rfl, ?_, ?_⟩
  · unfold stepGrid
    exact List.length_mapIdx
  · intro i
    unfold stepGrid
    exact getD_length_mapIdx2 g
      (fun a b c =>
        nextCell c (countNeighbors g numRows numCols a b) surviveMin surviveMax birthNum) i
  · unfold generateEmptyGrid
    exact List.length_replicate rows _
  · intro row hrow
    unfold generateEmptyGrid at hrow
    have hr := List.eq_of_mem_replicate hrow
    subst hr
    exact ⟨List.length_replicate cols 0, fun c hc => List.eq_of_mem_replicate hc⟩

/-- Witness for C6 at a concrete grid, state and requested size 3×4. -/
theorem dimension_preservation_witness :
    (0 : Nat) < 3 ∧ (0 : Nat) < 4 ∧
    ((stepGrid [[1, 0], [0, 1]] 2 2 2 3 3).length = ([[1, 0], [0, 1]] : Grid).length
    ∧ (∀ i, ((stepGrid [[1, 0], [0, 1]] 2 2 2 3 3).getD i []).length
        = (([[1, 0], [0, 1]] : Grid).getD i []).length)
    ∧ (handleResize (AppState.mk 2 2 [[1, 0], [0, 1]] false 2 3 3) 3 4).grid = generateEmptyGrid 3 4
    ∧ (handleResize (AppState.mk 2 2 [[1, 0], [0, 1]] false 2 3 3) 3 4).numRows = 3
    ∧ (handleResize (AppState.mk 2 2 [[1, 0], [0, 1]] false 2 3 3) 3 4).numCols = 4
    ∧ (generateEmptyGrid 3 4).length = 3
    ∧ ∀ row ∈ generateEmptyGrid 3 4, row.length = 4 ∧ ∀ c ∈ row, c = 0) :=
  ⟨by decide, by decide,
    dimension_preservation [[1, 0], [0, 1]] 2 2 2 3 3
      (AppState.mk 2 2 [[1, 0], [0, 1]] false 2 3 3) 3 4 (by decide) (by decide)⟩

/-- The empty grid has exactly `rows` rows. -/
theorem length_generateEmptyGrid (rows cols : Nat) :
    (generateEmptyGrid rows cols).length = rows := by
  unfold generateEmptyGrid
  exact List.length_replicate rows _

/-- Row lengths of the empty grid. -/
theorem getD_length_generateEmptyGrid (rows cols a : Nat) :
    ((generateEmptyGrid rows cols).getD a []).length = if a < rows then cols else 0 := by
  unfold generateEmptyGrid
  rw [getD_replicate]
  split
  · exact List.length_replicate cols 0
  · rfl

/-- C7: for `rows, cols ≥ 6`, the glider grid is dead everywhere except
exactly the five cells at offsets (0,+1), (+1,+2), (+2,0), (+2,+1), (+2,+2)
from the center `(⌊rows/2⌋, ⌊cols/2⌋)`; and the seed handler replaces the
grid wholesale with this dimension-determined grid, ignoring the previous
grid contents entirely. -/
theorem glider_cells_exact (rows cols : Nat) (h1 : 6 ≤ rows) (h2 : 6 ≤ cols)
    (i j : Nat) (hi : i < rows) (hj : j < cols) (s : AppState) :
    cellAt (gliderGrid rows cols) i j =
      (if (i = rows / 2 ∧ j = cols / 2 + 1) ∨ (i = rows / 2 + 1 ∧ j = cols / 2 + 2)
          ∨ (i = rows / 2 + 2 ∧ j = cols / 2) ∨ (i = rows / 2 + 2 ∧ j = cols / 2 + 1)
          ∨ (i = rows / 2 + 2 ∧ j = cols / 2 + 2) then 1 else 0)
    ∧ (createGlider s).grid = gliderGrid s.numRows s.numCols := by
  refine ⟨?_, rfl⟩
  have hr0 : rows / 2 < rows := by omega
  have hr1 : rows / 2 + 1 < rows := by omega
  have hr2 : rows / 2 + 2 < rows := by omega
  have hc0 : cols / 2 < cols := by omega
  have hc1 : cols / 2 + 1 < cols := by omega
  have hc2 : cols / 2 + 2 < cols := by omega
  simp only [gliderGrid, cellAt_setCell, length_setCell, getD_setCell_length,
    length_generateEmptyGrid, getD_length_generateEmptyGrid, cellAt_generateEmptyGrid,
    hr0, hr1, hr2, hc0, hc1, hc2, if_true, and_true, true_and]
  split_ifs <;> omega

/-- Witness for C7 on a concrete 6×6 grid at the cell (3, 4). -/
theorem glider_cells_exact_witness :
    (6 : Nat) ≤ 6 ∧ (3 : Nat) < 6 ∧ (4 : Nat) < 6 ∧
    (cellAt (gliderGrid 6 6) 3 4 =
      (if (3 = 6 / 2 ∧ 4 = 6 / 2 + 1) ∨ (3 = 6 / 2 + 1 ∧ 4 = 6 / 2 + 2)
          ∨ (3 = 6 / 2 + 2 ∧ 4 = 6 / 2) ∨ (3 = 6 / 2 + 2 ∧ 4 = 6 / 2 + 1)
          ∨ (3 = 6 / 2 + 2 ∧ 4 = 6 / 2 + 2) then 1 else 0)
    ∧ (createGlider (AppState.mk 6 6 (generateEmptyGrid 6 6) false 2 3 3)).grid = gliderGrid 6 6) :=
  ⟨by decide, by decide, by decide,
    glider_cells_exact 6 6 (by decide) (by decide) 3 4 (by decide) (by decide)
      (AppState.mk 6 6 (generateEmptyGrid 6 6) false 2 3 3)⟩

/-- C8: `handleCellClick(i, j)` on an in-bounds position flips exactly the
cell `(i, j)` (0 becomes 1 and any live cell becomes 0), leaves every other
cell unchanged, and does not change the run state. -/
theorem toggleCell_flips_only_target (s : AppState) (i j : Nat)
    (hwf : wellFormed s.grid s.numRows s.numCols)
    (hi : i < s.numRows) (hj : j < s.numCols) :
    cellAt (handleCellClick s i j).grid i j = (if cellAt s.grid i j = 0 then 1 else 0)
    ∧ (∀ a b, ¬(a = i ∧ b = j) →
        cellAt (handleCellClick s i j).grid a b = cellAt s.grid a b)
    ∧ (handleCellClick s i j).running = s.running := by
  obtain ⟨hlen, hrow⟩ := hwf
  have hlen2 : (handleCellClick s i j).grid.length = s.grid.length := List.length_mapIdx
  have hrow2 : ∀ a, ((handleCellClick s i j).grid.getD a []).length
      = (s.grid.getD a []).length := fun a =>
    getD_length_mapIdx2 s.grid
      (fun x y c => if x = i ∧ y = j then (if c ≠ 0 then 0 else 1) else c) a
  refine ⟨?_, ?_, rfl⟩
  · have hi' : i < s.grid.length := by omega
    have hrowlen : (s.grid.getD i []).length = s.numCols := by
      rw [List.getD_eq_getElem _ _ hi']
      exact (hrow _ (List.getElem_mem hi')).1
    have hmain : cellAt (handleCellClick s i j).grid i j
        = (fun x y c => if x = i ∧ y = j then (if c ≠ 0 then 0 else 1) else c) i j
            (cellAt s.grid i j) :=
      cellAt_mapIdx2 s.grid
        (fun x y c => if x = i ∧ y = j then (if c ≠ 0 then 0 else 1) else c) i j
        (by rw [hrowlen]; exact hj)
    rw [hmain]
    by_cases h0 : cellAt s.grid i j = 0 <;> simp [h0]
  · intro a b hab
    by_cases hinr : b < (s.grid.getD a []).length
    · have hmain : cellAt (handleCellClick s i j).grid a b
          = (fun x y c => if x = i ∧ y = j then (if c ≠ 0 then 0 else 1) else c) a b
              (cellAt s.grid a b) :=
        cellAt_mapIdx2 s.grid
          (fun x y c => if x = i ∧ y = j then (if c ≠ 0 then 0 else 1) else c) a b hinr
      rw [hmain]
      simp [hab]
    · have hz1 : cellAt s.grid a b = 0 := cellAt_oor (Or.inr (Nat.le_of_not_lt hinr))
      have hz2 : cellAt (handleCellClick s i j).grid a b = 0 :=
        cellAt_oor (Or.inr (by rw [hrow2 a]; exact Nat.le_of_not_lt hinr))
      rw [hz1, hz2]

/-- Witness for C8 on a concrete 2×2 state at cell (0, 1). -/
theorem toggleCell_flips_only_target_witness :
    wellFormed ([[1, 0], [0, 1]] : Grid) 2 2 ∧ (0 : Nat) < 2 ∧ (1 : Nat) < 2 ∧
    (cellAt (handleCellClick (AppState.mk 2 2 [[1, 0], [0, 1]] false 2 3 3) 0 1).grid 0 1
      = (if cellAt [[1, 0], [0, 1]] 0 1 = 0 then 1 else 0)
    ∧ (∀ a b, ¬(a = 0 ∧ b = 1) →
        cellAt (handleCellClick (AppState.mk 2 2 [[1, 0], [0, 1]] false 2 3 3) 0 1).grid a b = cellAt [[1, 0], [0, 1]] a b)
    ∧ (handleCellClick (AppState.mk 2 2 [[1, 0], [0, 1]] false 2 3 3) 0 1).running
        = false) :=
  ⟨by decide, by decide, by decide,
    toggleCell_flips_only_target
      (AppState.mk 2 2 [[1, 0], [0, 1]] false 2 3 3) 0 1
      (by decide) (by decide) (by decide)⟩

/-- C10: the grid transformations applied by `runSimulation` in
`src/src/App.jsx` and in `src/unnamed/part_000` agree on every grid,
dimensions and rule parameters. -/
theorem step_versions_agree (g : Grid) (numRows numCols : Nat)
    (surviveMin surviveMax birthNum : Int) :
    stepGrid g numRows numCols surviveMin surviveMax birthNum
      = stepGridP000 g numRows numCols surviveMin surviveMax birthNum := rfl

end GameOfLife
